import Mathlib

/-!
Verification of the Dashbuild trend/chart core (`trendChart.js`).

The module under study exposes three functions: `formatMetric`,
`calculateTrend` (the spec's `computeTrend`) and `buildTrendChart` (the
spec's `buildChart`).  The embedding below models JS numbers as exact
rationals (`ℚ`), dates as integers (a day-resolution timestamp: the only
date operations the source performs are copying, subtracting 6 days via
`setDate(getDate() - 6)`, and an opaque-to-the-core locale rendering),
missing/null values as `Option`, and JS objects holding metric values as
association lists.  DOM output is modeled as a descriptor structure holding
exactly the data the source computes and hands to the rendering layer
(`Plot.plot` and the `html` template); fixed style constants of the
`Plot.plot` call itself (height 180 and the four margins) are pure styling
and are not part of the descriptor.
-/

/- ─── Decimal rendering of numbers ─────────────────────────────────── -/

/-- The ASCII digit character for `n < 10`. -/
def digitChar (n : Nat) : Char := Char.ofNat (48 + n)

/-- Decimal digits of `n`, least significant first.  Structural fuel
(`fuel > n` suffices, one digit is produced per factor of 10) keeps the
definition kernel-reducible. -/
def natDigitsRevGo : Nat → Nat → List Char
  | 0, _ => []
  | fuel + 1, n =>
    if n < 10 then [digitChar n]
    else digitChar (n % 10) :: natDigitsRevGo fuel (n / 10)

/-- Decimal digits of `n`, least significant first. -/
def natDigitsRev (n : Nat) : List Char := natDigitsRevGo (n + 1) n

/-- Decimal rendering of a natural number, as produced by JS `String()`. -/
def natStr (n : Nat) : String := String.mk (natDigitsRev n).reverse

/-- Decimal rendering of an integer, as produced by JS `String()` on an
integral number (values in the non-exponential range). -/
def intStr (i : Int) : String :=
  (if i < 0 then "-" else "") ++ natStr i.natAbs

/-- Models JS `Number.isInteger` on the exact-rational value model. -/
def jsIsInteger (q : ℚ) : Bool := q.den == 1

/-- Rounding to the nearest integer, ties toward positive infinity.  ECMA
`toFixed` picks, among the two nearest scaled candidates, the larger one;
it is applied to the magnitude after the sign has been split off. -/
def roundTiesUp (x : ℚ) : Int := Int.floor (x + 1 / 2)

/-- Models JS `toFixed(1)` on the exact-rational value model: sign split
off first, magnitude scaled by 10 and rounded half-up, one forced decimal
digit. -/
def toFixed1 (q : ℚ) : String :=
  (if q < 0 then "-" else "") ++
    (let n := (roundTiesUp (|q| * 10)).toNat
     natStr (n / 10) ++ "." ++ natStr (n % 10))

/-- Left-pad a two-digit fraction field with zeros. -/
def pad2 (n : Nat) : String := if n < 10 then "0" ++ natStr n else natStr n

/-- Models JS `toFixed(2)`: two forced decimal digits. -/
def toFixed2 (q : ℚ) : String :=
  (if q < 0 then "-" else "") ++
    (let n := (roundTiesUp (|q| * 100)).toNat
     natStr (n / 100) ++ "." ++ pad2 (n % 100))

/-- Models the source's `.replace(/\.?0+$/, "")`: strip a maximal run of
trailing zeros together with a directly preceding decimal point.  On the
`toFixed` outputs it is applied to (which always contain a decimal point
followed by forced digits) this agrees with the regex replacement. -/
def stripZeroSuffix (s : String) : String :=
  let r := s.data.reverse.dropWhile (fun c => c = '0')
  let r := if r.headD ' ' = '.' then r.tail else r
  String.mk r.reverse

/-- Insert a thousands separator after every third digit; the input is the
digit list least significant first.  Structural fuel (the list length)
keeps the definition kernel-reducible. -/
def groupRevGo : Nat → List Char → List Char
  | 0, ds => ds
  | fuel + 1, ds =>
    if ds.length ≤ 3 then ds
    else ds.take 3 ++ ',' :: groupRevGo fuel (ds.drop 3)

/-- Insert thousands separators into a reversed digit list. -/
def groupRev (ds : List Char) : List Char := groupRevGo ds.length ds

/-- Left-pad a three-digit fraction field with zeros. -/
def pad3 (n : Nat) : String :=
  if n < 10 then "00" ++ natStr n
  else if n < 100 then "0" ++ natStr n
  else natStr n

/-- Models JS `Number.prototype.toLocaleString()` in the default en-US
locale on the exact-rational value model: thousands separators in the
integer part, at most three fraction digits (rounded half away from zero,
the Intl default `halfExpand`), trailing fraction zeros not shown. -/
def toLocaleStringQ (q : ℚ) : String :=
  let n := (roundTiesUp (|q| * 1000)).toNat
  let ip := n / 1000
  let fp := n % 1000
  (if q < 0 then "-" else "") ++
    String.mk (groupRev (natDigitsRev ip)).reverse ++
    (if fp = 0 then "" else stripZeroSuffix ("." ++ pad3 fp))

/- ─── formatMetric ──────────────────────────────────────────────────── -/

/-- Embedding of `formatMetric` (trendChart.js line 66).  The argument is
the (possibly null/missing) numeric metric value; the source's passthrough
branch for non-number, non-null inputs is outside the numeric value model
(metric values in this module are numbers). -/
def formatMetric (value : Option ℚ) (suffix : String) : String :=
  match value with
  | none => "—"
  | some v => toLocaleStringQ v ++ suffix

/- ─── SVG arrow icon constants (trendChart.js lines 74-76) ──────────── -/

/-- The up-right arrow icon string; direction `up` of the spec. -/
def svgUpRight : String := "<svg width=\"12\" height=\"12\" viewBox=\"0 0 12 12\" fill=\"none\" stroke=\"currentColor\" stroke-width=\"2\" stroke-linecap=\"round\" stroke-linejoin=\"round\"><path d=\"M2 10 L10 2\"/><path d=\"M5 2 L10 2 L10 7\"/></svg>"

/-- The down-right arrow icon string; direction `down` of the spec. -/
def svgDownRight : String := "<svg width=\"12\" height=\"12\" viewBox=\"0 0 12 12\" fill=\"none\" stroke=\"currentColor\" stroke-width=\"2\" stroke-linecap=\"round\" stroke-linejoin=\"round\"><path d=\"M2 2 L10 10\"/><path d=\"M5 10 L10 10 L10 5\"/></svg>"

/-- The flat arrow icon string; direction `flat` of the spec. -/
def svgFlat : String := "<svg width=\"12\" height=\"12\" viewBox=\"0 0 12 12\" fill=\"none\" stroke=\"currentColor\" stroke-width=\"2\" stroke-linecap=\"round\" stroke-linejoin=\"round\"><path d=\"M2 6 L10 6\"/><path d=\"M7 3 L10 6 L7 9\"/></svg>"

/-- Semantic color token for a positive trend (spec `semanticColor = up`). -/
def upColor : String := "var(--dash-trend-up)"

/-- Semantic color token for a negative trend (spec `semanticColor = down`). -/
def downColor : String := "var(--dash-trend-down)"

/-- Semantic color token for a flat/neutral trend (spec `semanticColor = flat`). -/
def flatColor : String := "var(--dash-trend-flat)"

/- ─── Data model ────────────────────────────────────────────────────── -/

/-- One sampled snapshot: a date plus a metrics mapping.  The mapping is an
association list; a key that is absent models both a missing and a null JS
value (the source only ever tests values with `!= null` / `== null`, which
identifies the two). -/
structure Snapshot where
  date : Int
  metrics : List (String × ℚ)
deriving DecidableEq

/-- The latest-metrics mapping, same representation as `Snapshot.metrics`. -/
abbrev Metrics := List (String × ℚ)

/-- The trend descriptor returned by `calculateTrend`: the source's
`{ text, arrow, color }` object.  Spec mapping: `displayText` is `text`;
`direction` is `none`/`up`/`down`/`flat` according to whether `arrow` is
empty, `svgUpRight`, `svgDownRight` or `svgFlat`; `semanticColor` is
`up`/`down`/`flat` according to `color`. -/
structure Trend where
  text : String
  arrow : String
  color : String
deriving DecidableEq

/-- The "no trend" descriptor (trendChart.js line 94). -/
def noTrend : Trend := { text := "", arrow := "", color := flatColor }

/-- Options bag of `calculateTrend` with its documented defaults. -/
structure TrendOptions where
  inverse : Bool := false
  neutral : Bool := false
deriving DecidableEq

/- ─── calculateTrend (trendChart.js lines 88-128) ───────────────────── -/

/-- Embedding of `calculateTrend`. -/
def calculateTrend (metricHistory : List Snapshot) (latestMetrics : Metrics)
    (metricKey : String) (opts : TrendOptions) : Trend :=
  if metricHistory.length < 2 then noTrend
  else
    match (metricHistory[metricHistory.length - 2]?).bind
            (fun s => s.metrics.lookup metricKey),
          latestMetrics.lookup metricKey with
    | some previousValue, some currentValue =>
      let delta := currentValue - previousValue
      let sign := if delta > 0 then "+" else ""
      let deltaText :=
        sign ++ (if jsIsInteger delta then intStr delta.num else toFixed1 delta)
      if delta = 0 then
        { text := deltaText, arrow := svgFlat, color := flatColor }
      else
        let isPositiveTrend := if opts.inverse then delta < 0 else delta > 0
        let arrow := if delta > 0 then svgUpRight else svgDownRight
        if opts.neutral then
          { arrow := arrow, text := deltaText, color := flatColor }
        else
          { arrow := arrow, text := deltaText,
            color := if isPositiveTrend then upColor else downColor }
    | _, _ => noTrend

/-- The delta `calculateTrend` computes when its guards pass: `none` exactly
on the inputs where the source takes one of its two `noTrend` early
returns (fewer than two history entries, or a null/missing comparison
value); used to state the claims about the non-degenerate paths. -/
def trendDelta (metricHistory : List Snapshot) (latestMetrics : Metrics)
    (metricKey : String) : Option ℚ :=
  if metricHistory.length < 2 then none
  else
    match (metricHistory[metricHistory.length - 2]?).bind
            (fun s => s.metrics.lookup metricKey),
          latestMetrics.lookup metricKey with
    | some previousValue, some currentValue => some (currentValue - previousValue)
    | _, _ => none


/- ─── makeArrowNode (trendChart.js lines 132-140) ───────────────────── -/

/-- Embedding of `makeArrowNode`: for an empty arrow the source returns the
empty string (modeled as `none`); otherwise it builds a span carrying the
trend's color and the arrow markup, modeled as the `(color, innerHTML)`
pair. -/
def makeArrowNode (trend : Trend) : Option (String × String) :=
  if trend.arrow = "" then none else some (trend.color, trend.arrow)

/- ─── Chart data model ──────────────────────────────────────────────── -/

/-- A projected chart point (`{ date, value }` object, trendChart.js
line 178). -/
structure ChartPoint where
  date : Int
  value : ℚ
deriving DecidableEq

/-- Options bag of `buildTrendChart` with its destructuring defaults
(trendChart.js lines 164-174).  `tickFormat` is the custom y-tick
formatter (a function of the tick's numeric position); `valueFormat` is
the custom display formatter (applied by the source both to point values
and to the possibly-missing `latestMetrics[metricKey]`, hence the
`Option ℚ` argument). -/
structure ChartOptions where
  title : Option String := none
  color : String := "var(--dash-trend-flat)"
  suffix : String := ""
  yDomain : Option (ℚ × ℚ) := none
  inverse : Bool := false
  neutral : Bool := false
  tickFormat : Option (ℚ → String) := none
  valueFormat : Option (Option ℚ → String) := none
  reverse : Bool := false

/-- A y-axis tick format: either the literal Plot format string `"d"`
(trendChart.js line 207) or a formatter function. -/
inductive TickFormat
  | str (s : String)
  | fn (f : ℚ → String)

/-- The y-axis options object (trendChart.js lines 199-211, 236-240). -/
structure YAxisOptions where
  label : Option String
  grid : Bool
  domain : Option (ℚ × ℚ)
  tickFormat : Option TickFormat

/-- The x-axis options object (trendChart.js lines 214-221). -/
structure XAxisOptions where
  type : String
  label : Option String
  domain : Option (Int × Int)

/-- A declarative Plot mark as the source constructs it, with its data and
style parameters.  Constant accessor strings (`x: "date"`, `y: "value"`)
are implied by the `ChartPoint` fields. -/
inductive Mark
  | ruleY (values : List ℚ) (stroke : String) (strokeWidth strokeOpacity : ℚ)
  | areaY (data : List ChartPoint) (y1 : ℚ) (fill : String) (fillOpacity : ℚ) (curve : String)
  | lineY (data : List ChartPoint) (stroke : String) (strokeWidth strokeOpacity : ℚ) (curve : String)
  | dot (data : List ChartPoint) (fill : String) (fillOpacity r : ℚ)
  | tip (data : List ChartPoint) (title : ChartPoint → String)

/-- The data of the card markup `buildTrendChart` returns (trendChart.js
lines 323-332): heading, headline value text, trend arrow node, delta
text, and the chart's axis options and marks.  The fixed `Plot.plot`
sizing constants (height and margins) are pure styling. -/
structure ChartCard where
  title : Option String
  headline : String
  trendArrowHtml : Option (String × String)
  deltaText : String
  xAxis : XAxisOptions
  yAxis : YAxisOptions
  marks : List Mark

/-- Result of `buildTrendChart`: either the "No data" placeholder card
(trendChart.js lines 180-185) or a chart card. -/
inductive ChartResult
  | noData (title : Option String)
  | card (c : ChartCard)

/- ─── Projection and the reverse-remap loop ─────────────────────────── -/

/-- Embedding of the projection (trendChart.js lines 176-178): keep the
history entries whose metric is non-null, each mapped to a freshly
allocated `{ date, value }` record. -/
def projectChartData (metricHistory : List Snapshot) (metricKey : String) :
    List ChartPoint :=
  (metricHistory.filter fun entry => (entry.metrics.lookup metricKey).isSome).map
    fun entry => { date := entry.date,
                   value := (entry.metrics.lookup metricKey).getD 0 }

/-- Whether every projected value is an integer (trendChart.js line 187). -/
def allIntegersOf (metricHistory : List Snapshot) (metricKey : String) : Bool :=
  (projectChartData metricHistory metricKey).all fun d => jsIsInteger d.value

/-- The mutable state visible to `buildTrendChart`'s execution: the input
history and latest-metrics mapping, plus the chart points.  The source's
only write reachable from a call is the reverse-remap loop
`for (const d of chartData) d.value = hi + lo - d.value;` and each element
of `chartData` is a fresh object literal allocated by the projection
`.map`, never an alias of an input snapshot, so the loop's writes are
modeled as updates to the `points` component alone. -/
structure ChartBuildState where
  history : List Snapshot
  latest : Metrics
  points : List ChartPoint

/-- The body of the remap loop, element by element in list order: each
point's value is overwritten with `hi + lo - value` (trendChart.js
lines 192-197). -/
def reverseRemapGo (lo hi : ℚ) : List ChartPoint → List ChartPoint
  | [] => []
  | d :: rest => { d with value := hi + lo - d.value } :: reverseRemapGo lo hi rest

/-- The remap loop acting on the execution state: it writes only the
freshly projected points. -/
def reverseRemapLoop (lo hi : ℚ) (st : ChartBuildState) : ChartBuildState :=
  { st with points := reverseRemapGo lo hi st.points }

/- ─── Shared y-tick number formatter ────────────────────────────────── -/

/-- The number formatter the source inlines twice for y-axis ticks
(trendChart.js lines 204-205 and 209-210, identical up to the appended
suffix): integers rendered plainly, non-integers via
`toFixed(2).replace(/\.?0+$/, "")`. -/
def plainNumFormat (d : ℚ) : String :=
  if jsIsInteger d then intStr d.num else stripZeroSuffix (toFixed2 d)

/-- Models `Date.prototype.toLocaleDateString()` on the integer date model:
an opaque, injective-on-dates rendering the core never inspects. -/
def dateToLocaleString (d : Int) : String := intStr d

/- ─── buildTrendChart (trendChart.js lines 158-333) ─────────────────── -/

/-- Embedding of `buildTrendChart`, with the state the source can write
threaded explicitly: the returned pair is the chart descriptor together
with the history and latest-metrics mapping as observable after the call
(see `ChartBuildState`). -/
def buildTrendChartFrame (metricHistory : List Snapshot) (latestMetrics : Metrics)
    (metricKey : String) (options : ChartOptions) :
    ChartResult × List Snapshot × Metrics :=
  let st0 : ChartBuildState :=
    { history := metricHistory, latest := latestMetrics,
      points := projectChartData metricHistory metricKey }
  if st0.points.length = 0 then
    (ChartResult.noData options.title, st0.history, st0.latest)
  else
    let allIntegers := st0.points.all fun d => jsIsInteger d.value
    let isSinglePoint := st0.points.length = 1
    let st1 := match options.reverse, options.yDomain with
      | true, some (lo, hi) => reverseRemapLoop lo hi st0
      | _, _ => st0
    let chartData := st1.points
    let yTickFormat : Option TickFormat :=
      match options.tickFormat with
      | some f => some (TickFormat.fn f)
      | none =>
        if options.suffix ≠ "" then
          some (TickFormat.fn fun d => plainNumFormat d ++ options.suffix)
        else if allIntegers then some (TickFormat.str "d")
        else some (TickFormat.fn plainNumFormat)
    let xDomain : Option (Int × Int) :=
      if isSinglePoint then
        let pointDate := (chartData.headD ⟨0, 0⟩).date
        some (pointDate - 6, pointDate)
      else none
    let metricTrend := calculateTrend metricHistory latestMetrics metricKey
      { inverse := options.inverse, neutral := options.neutral }
    let areaBaseline : ℚ := match options.yDomain with
      | some (lo, _) => lo
      | none => 0
    let displayValue : ℚ → String :=
      match options.reverse, options.yDomain, options.valueFormat with
      | true, some (lo, hi), some vf => fun v => vf (some (hi + lo - v))
      | _, _, _ => fun v => formatMetric (some v) options.suffix
    let yTickFormat : Option TickFormat :=
      match options.reverse, options.yDomain, options.tickFormat with
      | true, some (lo, hi), some origTickFormat =>
        some (TickFormat.fn fun d => origTickFormat (hi + lo - d))
      | _, _, _ => yTickFormat
    let trendArrowHtml :=
      if metricTrend.arrow ≠ "" then makeArrowNode metricTrend else none
    let deltaText :=
      if metricTrend.text ≠ "" then metricTrend.text ++ options.suffix ++ " from previous"
      else if metricHistory.length = 1 then "No trend"
      else ""
    let marks : List Mark :=
      if isSinglePoint then
        [Mark.ruleY [(chartData.headD ⟨0, 0⟩).value] options.color 1.5 0.7,
         Mark.dot chartData options.color 0.6 3]
      else
        [Mark.areaY chartData areaBaseline options.color 0.1 "monotone-x",
         Mark.lineY chartData options.color 1.5 0.7 "monotone-x",
         Mark.dot chartData options.color 0.6 2.5,
         Mark.tip chartData fun point =>
           dateToLocaleString point.date ++ ": " ++ displayValue point.value]
    let headline :=
      match options.valueFormat with
      | some vf => vf (latestMetrics.lookup metricKey)
      | none => formatMetric (latestMetrics.lookup metricKey) options.suffix
    (ChartResult.card
      { title := options.title
        headline := headline
        trendArrowHtml := trendArrowHtml
        deltaText := deltaText
        xAxis := { type := "time", label := none, domain := xDomain }
        yAxis := { label := none, grid := true, domain := options.yDomain,
                   tickFormat := yTickFormat }
        marks := marks },
     st1.history, st1.latest)

/-- Embedding of `buildTrendChart`: the chart descriptor alone. -/
def buildTrendChart (metricHistory : List Snapshot) (latestMetrics : Metrics)
    (metricKey : String) (options : ChartOptions) : ChartResult :=
  (buildTrendChartFrame metricHistory latestMetrics metricKey options).1

/- ─── Observation helpers on marks and chart results ────────────────── -/

/-- Whether a mark is an area mark. -/
def Mark.isAreaY : Mark → Bool
  | .areaY _ _ _ _ _ => true
  | _ => false

/-- Whether a mark is a line mark. -/
def Mark.isLineY : Mark → Bool
  | .lineY _ _ _ _ _ => true
  | _ => false

/-- The tooltip title function of a tip mark, if any. -/
def Mark.tipTitle : Mark → Option (ChartPoint → String)
  | .tip _ f => some f
  | _ => none

/-- The marks of a chart result (none for the "No data" card). -/
def ChartResult.marksOf : ChartResult → List Mark
  | .noData _ => []
  | .card c => c.marks

/-- The x-axis time domain of a chart result. -/
def ChartResult.xDomainOf : ChartResult → Option (Int × Int)
  | .noData _ => none
  | .card c => c.xAxis.domain

/-- The y-axis tick format of a chart result. -/
def ChartResult.yTick : ChartResult → Option TickFormat
  | .noData _ => none
  | .card c => c.yAxis.tickFormat

/-- The y-tick label a chart result produces at numeric axis position `d`,
when its tick format is a function. -/
def ChartResult.tickLabel (r : ChartResult) (d : ℚ) : Option String :=
  match r.yTick with
  | some (TickFormat.fn f) => some (f d)
  | _ => none

/-- The tooltip title functions among a chart result's marks. -/
def ChartResult.tipTitles (r : ChartResult) : List (ChartPoint → String) :=
  r.marksOf.filterMap Mark.tipTitle

/- ─── The spec's tick-formatting policy (section 4.2 step 3) ────────── -/

/-- Modelled from the spec's words, for comparison with the source: the
tick-formatting policy of section 4.2 step 3.  First matching rule wins:
(a) the explicit `tickFormat` option — composed with the un-reversing map
when `reverse` and a fixed domain are also present; (b) else with a
`suffix`, integers plainly and non-integers to two trimmed decimals, plus
the suffix; (c) else the integer format when every projected value is an
integer; (d) else the same integer/trimmed-decimal rule without suffix. -/
def specTickPolicy (options : ChartOptions) (allIntegers : Bool) : Option TickFormat :=
  match options.tickFormat with
  | some f =>
    match options.reverse, options.yDomain with
    | true, some (lo, hi) => some (TickFormat.fn fun d => f (hi + lo - d))
    | _, _ => some (TickFormat.fn f)
  | none =>
    if options.suffix ≠ "" then
      some (TickFormat.fn fun d => plainNumFormat d ++ options.suffix)
    else if allIntegers then some (TickFormat.str "d")
    else some (TickFormat.fn plainNumFormat)

/- ─── Helper lemmas ─────────────────────────────────────────────────── -/

/-- Every character produced by the digit renderer is a decimal digit. -/
theorem mem_natDigitsRevGo {c : Char} :
    ∀ fuel n, c ∈ natDigitsRevGo fuel n → ∃ k, k < 10 ∧ c = digitChar k := by
  intro fuel
  induction fuel with
  | zero => intro n hc; simp [natDigitsRevGo] at hc
  | succ fuel ih =>
    intro n hc
    unfold natDigitsRevGo at hc
    split at hc
    · next h => simp at hc; exact ⟨n, h, hc⟩
    · next h =>
      rcases List.mem_cons.mp hc with hc | hc
      · exact ⟨n % 10, Nat.mod_lt _ (by omega), hc⟩
      · exact ih _ hc

/-- Decimal digits are not a dot. -/
theorem digitChar_ne_dot {k : Nat} (h : k < 10) : digitChar k ≠ '.' := by
  unfold digitChar; interval_cases k <;> decide

/-- The dot character does not occur in `natStr`. -/
theorem dot_not_mem_natStr (n : Nat) : '.' ∉ (natStr n).data := by
  intro hmem
  simp only [natStr, List.mem_reverse] at hmem
  obtain ⟨k, hk, hc⟩ := mem_natDigitsRevGo _ _ hmem
  exact digitChar_ne_dot hk hc.symm

/-- The dot character does not occur in `intStr`. -/
theorem dot_not_mem_intStr (i : Int) : '.' ∉ (intStr i).data := by
  intro hmem
  simp only [intStr, String.data_append, List.mem_append] at hmem
  rcases hmem with hmem | hmem
  · revert hmem; split <;> decide
  · exact dot_not_mem_natStr _ hmem

/-- `natStr` is never the empty string. -/
theorem natStr_ne_empty (n : Nat) : natStr n ≠ "" := by
  intro h
  have : (natStr n).data = [] := by rw [h]
  simp only [natStr, List.reverse_eq_nil_iff] at this
  unfold natDigitsRev natDigitsRevGo at this
  revert this; split <;> simp

/-- A single decimal digit renders as its digit character. -/
theorem natStr_lt_ten (n : Nat) (h : n < 10) : (natStr n).data = [digitChar n] := by
  simp [natStr, natDigitsRev, natDigitsRevGo, h]

/-- The remap loop body is pointwise: it maps every projected point's value
to `hi + lo - value`, preserving dates and the list structure. -/
theorem reverseRemapGo_eq_map (lo hi : ℚ) (ps : List ChartPoint) :
    reverseRemapGo lo hi ps = ps.map fun p => ⟨p.date, hi + lo - p.value⟩ := by
  induction ps with
  | nil => rfl
  | cons d rest ih => simp [reverseRemapGo, ih]

/- ─── Claim C2 ──────────────────────────────────────────────────────── -/

/-- Claim C2 (amended): for an empty history and any key, `calculateTrend`
returns the "no trend" descriptor (empty text, direction `none`, semantic
color `flat`), and `buildTrendChart` returns the "No data" state
unconditionally — whether or not `latest[key]` is non-null — because the
projected series is empty. -/
theorem C2_empty_history (latest : Metrics) (key : String) (topts : TrendOptions)
    (copts : ChartOptions) :
    calculateTrend [] latest key topts = noTrend ∧
      buildTrendChart [] latest key copts = ChartResult.noData copts.title :=
  ⟨rfl, rfl⟩

/-- Claim C2 counterexample: with `history = []` and a latest mapping in
which the key is present (value 5, non-null), `buildTrendChart` still
returns the "No data" state, contradicting the claim that it would render
the current value with no trend line. -/
theorem C2_counterexample :
    buildTrendChart [] [("x", (5 : ℚ))] "x" {} = ChartResult.noData none ∧
      ([("x", (5 : ℚ))] : Metrics).lookup "x" = some 5 :=
  ⟨rfl, rfl⟩

/- ─── Claim C3 ──────────────────────────────────────────────────────── -/

/-- Claim C3: `calculateTrend` returns the "no trend" descriptor exactly
when the history has fewer than 2 entries or either comparison value (the
metric at `history[length-2]`, or `latest[key]`) is null/missing.  In
particular a present value of 0 is on the right-hand side's negation, so
it produces a normal trend, never "no trend". -/
theorem C3_noTrend_iff (hist : List Snapshot) (latest : Metrics) (key : String)
    (opts : TrendOptions) :
    calculateTrend hist latest key opts = noTrend ↔
      (hist.length < 2 ∨
        (hist[hist.length - 2]?).bind (fun s => s.metrics.lookup key) = none ∨
        latest.lookup key = none) := by
  constructor
  · intro h
    unfold calculateTrend at h
    by_cases hl : hist.length < 2
    · exact Or.inl hl
    · rw [if_neg hl] at h
      rcases hp : (hist[hist.length - 2]?).bind (fun s => s.metrics.lookup key) with
        _ | p
      · exact Or.inr (Or.inl rfl)
      · rcases hc : latest.lookup key with _ | c
        · exact Or.inr (Or.inr rfl)
        · exfalso
          rw [hp, hc] at h
          dsimp only at h
          split at h
          · have hs : svgFlat = "" := congrArg Trend.arrow h
            exact absurd hs (by decide)
          · split at h <;>
            · have hs : (if c - p > 0 then svgUpRight else svgDownRight) = "" :=
                congrArg Trend.arrow h
              split at hs <;> exact absurd hs (by decide)
  · intro h
    unfold calculateTrend
    split
    · rfl
    · next hl =>
      rcases h with h | h | h
      · exact absurd h hl
      · rw [h]
      · rcases hp : (hist[hist.length - 2]?).bind (fun s => s.metrics.lookup key) with
          _ | p
        · rfl
        · rw [h]

/- ─── More helper lemmas for calculateTrend ─────────────────────────── -/

/-- Unpacking of a defined trend delta: the guards of `calculateTrend`
pass and the delta is current minus previous. -/
theorem trendDelta_spec (hist : List Snapshot) (latest : Metrics) (key : String) (d : ℚ)
    (hd : trendDelta hist latest key = some d) :
    ¬hist.length < 2 ∧
      ∃ p c, (hist[hist.length - 2]?).bind (fun s => s.metrics.lookup key) = some p ∧
        latest.lookup key = some c ∧ c - p = d := by
  unfold trendDelta at hd
  by_cases hl : hist.length < 2
  · rw [if_pos hl] at hd; cases hd
  · rw [if_neg hl] at hd
    refine ⟨hl, ?_⟩
    rcases hp : (hist[hist.length - 2]?).bind (fun s => s.metrics.lookup key) with _ | p
    · rw [hp] at hd; cases hd
    · rcases hc : latest.lookup key with _ | c
      · rw [hp, hc] at hd; cases hd
      · rw [hp, hc] at hd
        exact ⟨p, c, rfl, rfl, Option.some.inj hd⟩

/-- Evaluation of `calculateTrend` on the non-degenerate path. -/
theorem calculateTrend_eq (hist : List Snapshot) (latest : Metrics) (key : String)
    (opts : TrendOptions) (p c : ℚ) (hl : ¬hist.length < 2)
    (hp : (hist[hist.length - 2]?).bind (fun s => s.metrics.lookup key) = some p)
    (hc : latest.lookup key = some c) :
    calculateTrend hist latest key opts =
      (if c - p = 0 then
        { text := (if c - p > 0 then "+" else "") ++
            (if jsIsInteger (c - p) then intStr (c - p).num else toFixed1 (c - p)),
          arrow := svgFlat, color := flatColor }
       else if opts.neutral then
        { text := (if c - p > 0 then "+" else "") ++
            (if jsIsInteger (c - p) then intStr (c - p).num else toFixed1 (c - p)),
          arrow := if c - p > 0 then svgUpRight else svgDownRight, color := flatColor }
       else
        { text := (if c - p > 0 then "+" else "") ++
            (if jsIsInteger (c - p) then intStr (c - p).num else toFixed1 (c - p)),
          arrow := if c - p > 0 then svgUpRight else svgDownRight,
          color := if (if opts.inverse then c - p < 0 else c - p > 0) then upColor
            else downColor }) := by
  unfold calculateTrend
  rw [if_neg hl, hp, hc]

/-- The digit list of `natStr` is never empty. -/
theorem natStr_data_ne_nil (n : Nat) : (natStr n).data ≠ [] := by
  simp only [natStr, ne_eq, List.reverse_eq_nil_iff]
  unfold natDigitsRev natDigitsRevGo
  split <;> simp

/-- A string with a nonempty character list is not the empty string. -/
theorem string_ne_empty_of_data {s : String} (h : s.data ≠ []) : s ≠ "" := by
  intro he; rw [he] at h; exact h rfl

/-- The character list of `intStr` is never empty. -/
theorem intStr_data_ne_nil (i : Int) : (intStr i).data ≠ [] := by
  simp only [intStr, String.data_append, ne_eq, List.append_eq_nil]
  intro ⟨_, h⟩
  exact natStr_data_ne_nil _ h

/-- The character list of `toFixed1` is never empty. -/
theorem toFixed1_data_ne_nil (q : ℚ) : (toFixed1 q).data ≠ [] := by
  simp only [toFixed1, String.data_append, ne_eq, List.append_eq_nil]
  intro ⟨_, _, h⟩
  exact natStr_data_ne_nil _ h

/-- The delta text of `calculateTrend` is never empty. -/
theorem deltaText_ne_empty (d : ℚ) :
    ((if d > 0 then "+" else "") ++
      (if jsIsInteger d then intStr d.num else toFixed1 d)) ≠ "" := by
  apply string_ne_empty_of_data
  simp only [String.data_append, ne_eq, List.append_eq_nil]
  intro ⟨_, h⟩
  split at h
  · exact intStr_data_ne_nil _ h
  · exact toFixed1_data_ne_nil _ h

/- ─── Scenario inputs from the spec (section 8) ─────────────────────── -/

/-- The spec's scenario history: metric `x` moves from 10 to 15. -/
def scenarioHistory : List Snapshot := [⟨1, [("x", 10)]⟩, ⟨2, [("x", 15)]⟩]

/-- The spec's scenario latest metrics: `x` is 15. -/
def scenarioLatest : Metrics := [("x", 15)]

/- ─── Claim C4 ──────────────────────────────────────────────────────── -/

/-- Claim C4: for any inputs whose delta is non-zero (with `neutral` at its
default `false`), `inverse = true` yields the opposite semantic color from
`inverse = false` while text and arrow agree; and the spec's scenario
(history x: 10 then 15, latest x: 15) yields `("+5", up, up)` by default
and `("+5", up, down)` with `inverse`. -/
theorem C4_inverse_flips (hist : List Snapshot) (latest : Metrics) (key : String)
    (d : ℚ) (hd : trendDelta hist latest key = some d) (hnz : d ≠ 0) :
    ((calculateTrend hist latest key ⟨false, false⟩).text =
        (calculateTrend hist latest key ⟨true, false⟩).text ∧
      (calculateTrend hist latest key ⟨false, false⟩).arrow =
        (calculateTrend hist latest key ⟨true, false⟩).arrow ∧
      (d > 0 → (calculateTrend hist latest key ⟨false, false⟩).color = upColor ∧
        (calculateTrend hist latest key ⟨true, false⟩).color = downColor) ∧
      (d < 0 → (calculateTrend hist latest key ⟨false, false⟩).color = downColor ∧
        (calculateTrend hist latest key ⟨true, false⟩).color = upColor)) ∧
    (calculateTrend scenarioHistory scenarioLatest "x" ⟨false, false⟩ =
        { text := "+5", arrow := svgUpRight, color := upColor } ∧
      calculateTrend scenarioHistory scenarioLatest "x" ⟨true, false⟩ =
        { text := "+5", arrow := svgUpRight, color := downColor }) := by
  obtain ⟨hl, p, c, hp, hc, hpc⟩ := trendDelta_spec hist latest key d hd
  rw [calculateTrend_eq hist latest key ⟨false, false⟩ p c hl hp hc,
    calculateTrend_eq hist latest key ⟨true, false⟩ p c hl hp hc, hpc]
  rw [if_neg hnz, if_neg hnz]
  refine ⟨⟨rfl, rfl, fun hgt => ?_, fun hlt => ?_⟩,
    by with_unfolding_all rfl, by with_unfolding_all rfl⟩
  · constructor <;> simp [hgt, asymm hgt]
  · constructor <;> simp [hlt, asymm hlt]

/-- Witness for C4 at the spec's scenario: delta 5 is non-zero, default
polarity colors the trend up, inverse polarity colors it down. -/
theorem C4_witness :
    trendDelta scenarioHistory scenarioLatest "x" = some 5 ∧ (5 : ℚ) ≠ 0 ∧
      (calculateTrend scenarioHistory scenarioLatest "x" ⟨false, false⟩).color = upColor ∧
      (calculateTrend scenarioHistory scenarioLatest "x" ⟨true, false⟩).color = downColor :=
  ⟨by with_unfolding_all rfl, by decide,
    ((C4_inverse_flips scenarioHistory scenarioLatest "x" 5
        (by with_unfolding_all rfl) (by decide)).1.2.2.1 (by decide)).1,
    ((C4_inverse_flips scenarioHistory scenarioLatest "x" 5
        (by with_unfolding_all rfl) (by decide)).1.2.2.1 (by decide)).2⟩

/- ─── Claim C5 ──────────────────────────────────────────────────────── -/

/-- Claim C5: the display text is the delta with an explicit leading `+`
when positive, rendered without decimals when the delta is an integer and
to exactly one decimal place otherwise; and a zero delta (both values
present and equal) gives a flat arrow and flat semantic color, which is
not the "no trend" descriptor. -/
theorem C5_display_text (hist : List Snapshot) (latest : Metrics) (key : String)
    (opts : TrendOptions) (d : ℚ) (hd : trendDelta hist latest key = some d) :
    (calculateTrend hist latest key opts).text =
        (if d > 0 then "+" else "") ++
          (if jsIsInteger d then intStr d.num else toFixed1 d) ∧
      (d > 0 → (calculateTrend hist latest key opts).text.data.take 1 = ['+']) ∧
      (jsIsInteger d = true → '.' ∉ (calculateTrend hist latest key opts).text.data) ∧
      (jsIsInteger d = false → ∃ pre k, k < 10 ∧
        (calculateTrend hist latest key opts).text.data = pre ++ '.' :: [digitChar k]) ∧
      (d = 0 → (calculateTrend hist latest key opts).arrow = svgFlat ∧
        (calculateTrend hist latest key opts).color = flatColor ∧
        calculateTrend hist latest key opts ≠ noTrend) := by
  obtain ⟨hl, p, c, hp, hc, hpc⟩ := trendDelta_spec hist latest key d hd
  have hT := calculateTrend_eq hist latest key opts p c hl hp hc
  rw [hpc] at hT
  have htext : (calculateTrend hist latest key opts).text =
      (if d > 0 then "+" else "") ++
        (if jsIsInteger d then intStr d.num else toFixed1 d) := by
    rw [hT]
    split
    · rfl
    · split <;> rfl
  refine ⟨htext, fun hgt => ?_, fun hint => ?_, fun hnint => ?_, fun h0 => ?_⟩
  · have hplus : ("+" : String).data = ['+'] := rfl
    rw [htext, if_pos hgt]
    simp [String.data_append, hplus]
  · rw [htext]
    have hdata : ((if d > 0 then ("+" : String) else "") ++
        (if jsIsInteger d then intStr d.num else toFixed1 d)).data =
        (if d > 0 then ("+" : String) else "").data ++ (intStr d.num).data := by
      rw [String.data_append, hint]; rfl
    rw [hdata]
    intro hmem
    rcases List.mem_append.mp hmem with hmem | hmem
    · revert hmem; split <;> decide
    · exact dot_not_mem_intStr _ hmem
  · rw [htext]
    have hten : (roundTiesUp (|d| * 10)).toNat % 10 < 10 := Nat.mod_lt _ (by omega)
    refine ⟨(if d > 0 then ("+" : String) else "").data ++
        ((if d < 0 then ("-" : String) else "").data ++
          (natStr ((roundTiesUp (|d| * 10)).toNat / 10)).data),
      (roundTiesUp (|d| * 10)).toNat % 10, hten, ?_⟩
    have hdot : ("." : String).data = ['.'] := rfl
    have hone := natStr_lt_ten _ hten
    simp [hnint, toFixed1, String.data_append, hdot, hone]
  · subst h0
    rw [hT]
    refine ⟨by simp, by simp, fun heq => ?_⟩
    have ht : ((if (0 : ℚ) > 0 then "+" else "") ++
        (if jsIsInteger 0 then intStr (0 : ℚ).num else toFixed1 0)) = "" := by
      have := congrArg Trend.text heq
      simpa using this
    exact deltaText_ne_empty 0 ht

/-- Witness for C5 at the spec's scenario: delta 5, text `"+5"`, leading
plus, flat facts vacuous. -/
theorem C5_witness :
    trendDelta scenarioHistory scenarioLatest "x" = some 5 ∧
      (calculateTrend scenarioHistory scenarioLatest "x" ⟨false, false⟩).text =
        (if (5 : ℚ) > 0 then "+" else "") ++
          (if jsIsInteger 5 then intStr (5 : ℚ).num else toFixed1 5) ∧
      (calculateTrend scenarioHistory scenarioLatest "x" ⟨false, false⟩).text.data.take 1 =
        ['+'] :=
  ⟨by with_unfolding_all rfl,
    (C5_display_text scenarioHistory scenarioLatest "x" ⟨false, false⟩ 5
      (by with_unfolding_all rfl)).1,
    (C5_display_text scenarioHistory scenarioLatest "x" ⟨false, false⟩ 5
      (by with_unfolding_all rfl)).2.1 (by decide)⟩

/- ─── Claim C6 ──────────────────────────────────────────────────────── -/

/-- Claim C6: with `neutral = true` the semantic color is always flat,
whatever the delta's sign and whatever `inverse` is, while the arrow still
reflects the raw arithmetic sign of the delta. -/
theorem C6_neutral (hist : List Snapshot) (latest : Metrics) (key : String)
    (inv : Bool) (d : ℚ) (hd : trendDelta hist latest key = some d) :
    (calculateTrend hist latest key ⟨inv, true⟩).color = flatColor ∧
      (d > 0 → (calculateTrend hist latest key ⟨inv, true⟩).arrow = svgUpRight) ∧
      (d < 0 → (calculateTrend hist latest key ⟨inv, true⟩).arrow = svgDownRight) ∧
      (d = 0 → (calculateTrend hist latest key ⟨inv, true⟩).arrow = svgFlat) := by
  obtain ⟨hl, p, c, hp, hc, hpc⟩ := trendDelta_spec hist latest key d hd
  have hT := calculateTrend_eq hist latest key ⟨inv, true⟩ p c hl hp hc
  rw [hpc] at hT
  rw [hT]
  refine ⟨?_, fun hgt => ?_, fun hlt => ?_, fun h0 => ?_⟩
  · split
    · rfl
    · simp
  · simp [ne_of_gt hgt, hgt]
  · simp [ne_of_lt hlt, asymm hlt]
  · subst h0; simp

/-- Witness for C6 at the spec's scenario with `inverse = true`: the color
stays flat and the arrow points up for the positive delta. -/
theorem C6_witness :
    trendDelta scenarioHistory scenarioLatest "x" = some 5 ∧
      (calculateTrend scenarioHistory scenarioLatest "x" ⟨true, true⟩).color = flatColor ∧
      (calculateTrend scenarioHistory scenarioLatest "x" ⟨true, true⟩).arrow = svgUpRight :=
  ⟨by with_unfolding_all rfl,
    (C6_neutral scenarioHistory scenarioLatest "x" true 5 (by with_unfolding_all rfl)).1,
    (C6_neutral scenarioHistory scenarioLatest "x" true 5
      (by with_unfolding_all rfl)).2.1 (by decide)⟩

/- ─── Claim C9 ──────────────────────────────────────────────────────── -/

/-- Claim C9: the build leaves its inputs unchanged: the history and the
latest-metrics mapping observable after the call equal the inputs, the
returned descriptor is the pure `buildTrendChart` value, and the remap
loop — the source's only write — touches only the freshly projected
points component of the state, never the history or latest mapping.
(`calculateTrend` contains no assignment at all; its embedding is the pure
function used throughout.) -/
theorem C9_inputs_unchanged (hist : List Snapshot) (latest : Metrics) (key : String)
    (o : ChartOptions) :
    (buildTrendChartFrame hist latest key o).2.1 = hist ∧
      (buildTrendChartFrame hist latest key o).2.2 = latest ∧
      (buildTrendChartFrame hist latest key o).1 = buildTrendChart hist latest key o ∧
      ∀ lo hi st, (reverseRemapLoop lo hi st).history = st.history ∧
        (reverseRemapLoop lo hi st).latest = st.latest := by
  obtain ⟨t, col, suf, yd, inv, neu, tf, vf, rev⟩ := o
  refine ⟨?_, ?_, rfl, fun lo hi st => ⟨rfl, rfl⟩⟩ <;>
  · unfold buildTrendChartFrame
    dsimp only
    cases rev <;> rcases yd with _ | ⟨lo, hi⟩ <;> split <;> rfl

/- ─── Claim C10 ─────────────────────────────────────────────────────── -/

/-- Claim C10: when `reverse = true` but no `yDomain` is supplied, the
reverse option is silently ignored: the output equals that of the same
call with `reverse = false` — no value remapping, no tick-label
un-reversing, no change to the display formatter. -/
theorem C10_reverse_needs_domain (hist : List Snapshot) (latest : Metrics)
    (key : String) (o : ChartOptions) (hyd : o.yDomain = none) :
    buildTrendChart hist latest key { o with reverse := true } =
      buildTrendChart hist latest key { o with reverse := false } := by
  obtain ⟨t, col, suf, yd, inv, neu, tf, vf, rev⟩ := o
  dsimp only at hyd
  subst hyd
  cases tf <;> cases vf <;> rfl

/-- Witness for C10: with default options (no y-domain) on the scenario
inputs, the two calls agree. -/
theorem C10_witness :
    ({} : ChartOptions).yDomain = none ∧
      buildTrendChart scenarioHistory scenarioLatest "x"
          { ({} : ChartOptions) with reverse := true } =
        buildTrendChart scenarioHistory scenarioLatest "x"
          { ({} : ChartOptions) with reverse := false } :=
  ⟨rfl, C10_reverse_needs_domain scenarioHistory scenarioLatest "x" {} rfl⟩

/- ─── Claim C8 ──────────────────────────────────────────────────────── -/

/-- Claim C8: on a nonempty projected series, the y-tick formatter the
build selects is exactly the spec's first-matching-rule policy
(`specTickPolicy`): explicit `tickFormat` (composed with the un-reversing
map when `reverse` and a fixed domain are both present); else the
suffix-appending integer/trimmed-two-decimal formatter; else the literal
integer format `"d"` when every projected value is an integer; else the
same integer/trimmed-decimal formatter without suffix. -/
theorem C8_tick_policy (hist : List Snapshot) (latest : Metrics) (key : String)
    (o : ChartOptions) (hne : projectChartData hist key ≠ []) :
    (buildTrendChart hist latest key o).yTick =
      specTickPolicy o (allIntegersOf hist key) := by
  obtain ⟨t, col, suf, yd, inv, neu, tf, vf, rev⟩ := o
  have hlen : ¬(projectChartData hist key).length = 0 := by
    simpa [List.length_eq_zero] using hne
  unfold buildTrendChart buildTrendChartFrame
  rw [if_neg hlen]
  cases tf <;> cases rev <;> rcases yd with _ | ⟨lo, hi⟩ <;> rfl

/-- Witness for C8 on the scenario inputs with default options: the
projected series is nonempty and the policy selects the integer format. -/
theorem C8_witness :
    projectChartData scenarioHistory "x" ≠ [] ∧
      (buildTrendChart scenarioHistory scenarioLatest "x" {}).yTick =
        specTickPolicy {} (allIntegersOf scenarioHistory "x") :=
  ⟨by with_unfolding_all decide,
    C8_tick_policy scenarioHistory scenarioLatest "x" {} (by with_unfolding_all decide)⟩

/- ─── Claim C7 ──────────────────────────────────────────────────────── -/

/-- Claim C7: when the projected series has exactly one point, the build
produces no area or line mark — only a horizontal reference line at the
point's (possibly remapped) value plus a single marker — and the time
domain runs from exactly 6 days before the point's date to the point's
date. -/
theorem C7_single_point (hist : List Snapshot) (latest : Metrics) (key : String)
    (o : ChartOptions) (p : ChartPoint) (hp : projectChartData hist key = [p]) :
    (∃ v, (buildTrendChart hist latest key o).marksOf =
        [Mark.ruleY [v] o.color 1.5 0.7, Mark.dot [⟨p.date, v⟩] o.color 0.6 3]) ∧
      (∀ m ∈ (buildTrendChart hist latest key o).marksOf,
        m.isAreaY = false ∧ m.isLineY = false) ∧
      (buildTrendChart hist latest key o).xDomainOf = some (p.date - 6, p.date) := by
  obtain ⟨t, col, suf, yd, inv, neu, tf, vf, rev⟩ := o
  have hex : ∃ v,
      (buildTrendChart hist latest key ⟨t, col, suf, yd, inv, neu, tf, vf, rev⟩).marksOf =
        [Mark.ruleY [v] col 1.5 0.7, Mark.dot [⟨p.date, v⟩] col 0.6 3] := by
    unfold buildTrendChart buildTrendChartFrame
    rw [hp]
    dsimp only
    cases rev <;> rcases yd with _ | ⟨lo, hi⟩ <;> exact ⟨_, rfl⟩
  obtain ⟨v, hv⟩ := hex
  refine ⟨⟨v, hv⟩, ?_, ?_⟩
  · intro m hm
    rw [hv] at hm
    simp only [List.mem_cons, List.not_mem_nil, or_false] at hm
    rcases hm with rfl | rfl <;> exact ⟨rfl, rfl⟩
  · unfold buildTrendChart buildTrendChartFrame
    rw [hp]
    dsimp only
    cases rev <;> rcases yd with _ | ⟨lo, hi⟩ <;> rfl

/-- One-entry history used to witness the single-point layout. -/
def singleHistory : List Snapshot := [⟨9, [("x", 3)]⟩]

/-- Witness for C7: one snapshot projects to a single point dated 9, and
the time domain is padded to start at 3 = 9 - 6. -/
theorem C7_witness :
    projectChartData singleHistory "x" = [⟨9, 3⟩] ∧
      (buildTrendChart singleHistory [("x", 3)] "x" {}).xDomainOf =
        some ((9 : Int) - 6, 9) :=
  ⟨by with_unfolding_all rfl,
    (C7_single_point singleHistory [("x", 3)] "x" {} ⟨9, 3⟩
      (by with_unfolding_all rfl)).2.2⟩

/- ─── Claim C1 ──────────────────────────────────────────────────────── -/

/-- Claim C1 (amended): with `reverse = true` and `yDomain = [lo, hi]`,
every projected point's value is remapped to `hi + lo - value`; and when a
`valueFormat` is supplied, the tooltip display function reverses the
inversion before formatting, so the displayed text for a remapped value is
the `valueFormat` rendering of the original un-reversed value.  (Without a
`valueFormat`, the source formats the remapped value as-is — see the
counterexample.) -/
theorem C1_reverse_roundtrip (hist : List Snapshot) (latest : Metrics) (key : String)
    (o : ChartOptions) (lo hi : ℚ) (vf : Option ℚ → String)
    (hrev : o.reverse = true) (hyd : o.yDomain = some (lo, hi))
    (hvf : o.valueFormat = some vf) :
    (∀ ps, reverseRemapGo lo hi ps = ps.map fun q => ⟨q.date, hi + lo - q.value⟩) ∧
      (∀ f ∈ (buildTrendChart hist latest key o).tipTitles, ∀ dt v,
        f ⟨dt, hi + lo - v⟩ = dateToLocaleString dt ++ ": " ++ vf (some v)) := by
  refine ⟨reverseRemapGo_eq_map lo hi, ?_⟩
  have harith : ∀ v : ℚ, hi + lo - (hi + lo - v) = v := fun v => by ring
  unfold buildTrendChart buildTrendChartFrame
  rw [hrev, hyd, hvf]
  rcases hcd : projectChartData hist key with _ | ⟨q, rest⟩
  · intro f hf
    simp [ChartResult.tipTitles, ChartResult.marksOf] at hf
  · rcases rest with _ | ⟨r, rest⟩
    · intro f hf
      simp [ChartResult.tipTitles, ChartResult.marksOf, Mark.tipTitle, List.filterMap] at hf
    · intro f hf
      simp only [ChartResult.tipTitles, ChartResult.marksOf, Mark.tipTitle,
        List.filterMap, List.length_cons, List.mem_singleton] at hf
      subst hf
      intro dt v
      dsimp only
      rw [harith]

/-- The history used for the C1 counterexample and witness: metric `y`
moves from 2 to 3. -/
def cexHistory : List Snapshot := [⟨1, [("y", 2)]⟩, ⟨2, [("y", 3)]⟩]

/-- The latest metrics used for the C1 counterexample and witness. -/
def cexLatest : Metrics := [("y", 3)]

/-- Reversed-chart options without a `valueFormat`. -/
def cexOptions : ChartOptions := { yDomain := some (1, 5), reverse := true }

/-- Claim C1 counterexample: with `reverse = true`, `yDomain = [1, 5]` and
no `valueFormat`, the tooltip for the point whose original value is 2
(remapped to 5 + 1 - 2 = 4) reads "1: 4" — the remapped value formatted
as-is — while formatting the original un-reversed value with the default
formatter gives "2", so the claimed round trip fails. -/
theorem C1_counterexample :
    ((buildTrendChart cexHistory cexLatest "y" cexOptions).tipTitles.headD
        (fun _ => "")) ⟨1, 5 + 1 - 2⟩ = "1: 4" ∧
      formatMetric (some 2) "" = "2" ∧ ("1: 4" : String) ≠ "1: 2" :=
  ⟨by with_unfolding_all rfl, by with_unfolding_all rfl, by decide⟩

/-- A custom display formatter for the C1 witness. -/
def wFormat : Option ℚ → String := fun v => formatMetric v "r"

/-- Reversed-chart options carrying the custom `valueFormat`. -/
def wOptions : ChartOptions :=
  { yDomain := some (1, 5), valueFormat := some wFormat, reverse := true }

/-- Witness for C1 (amended): on the two-point history, the remap sends
value 2 to 5 + 1 - 2, and the tooltip function displays the remapped point
by applying `valueFormat` to the original value 2. -/
theorem C1_witness :
    wOptions.reverse = true ∧ wOptions.yDomain = some (1, 5) ∧
      wOptions.valueFormat = some wFormat ∧
      reverseRemapGo 1 5 [⟨1, 2⟩] = [⟨(1 : Int), (5 : ℚ) + 1 - 2⟩] ∧
      (fun point : ChartPoint =>
          dateToLocaleString point.date ++ ": " ++ wFormat (some (5 + 1 - point.value)))
        ⟨1, 5 + 1 - 2⟩ = dateToLocaleString 1 ++ ": " ++ wFormat (some 2) := by
  refine ⟨rfl, rfl, rfl, ?_, ?_⟩
  · simpa using
      (C1_reverse_roundtrip cexHistory cexLatest "y" wOptions 1 5 wFormat rfl rfl rfl).1
        [⟨1, 2⟩]
  · exact (C1_reverse_roundtrip cexHistory cexLatest "y" wOptions 1 5 wFormat rfl rfl
      rfl).2 _ (by with_unfolding_all exact List.Mem.head _) 1 2
